import Mathlib

deriving instance DecidableEq for Except

namespace TEP

/-!
Verification of the traceable-execution-platform core against its
natural-language specification.

A shallow embedding of the Python sources under `backend/app`: bytes
are `Nat` values, byte streams are `List Nat`, SQLAlchemy rows become
Lean structures, the services become pure functions over an explicit
database/storage state, and raised `HTTPException`s become `Except`
errors.  SHA-256 is implemented in full (FIPS 180-4) so that
`hashlib.sha256` is modelled faithfully.  Definitions come first, the
theorems about them follow at the end of the file.
-/

def u32mod : Nat := 4294967296

def u32 (x : Nat) : Nat := x % u32mod

def rotr (n x : Nat) : Nat := u32 ((x >>> n) ||| (x <<< (32 - n)))

def shaK : List Nat :=
  [1116352408, 1899447441, 3049323471, 3921009573, 961987163, 1508970993,
   2453635748, 2870763221, 3624381080, 310598401, 607225278, 1426881987,
   1925078388, 2162078206, 2614888103, 3248222580, 3835390401, 4022224774,
   264347078, 604807628, 770255983, 1249150122, 1555081692, 1996064986,
   2554220882, 2821834349, 2952996808, 3210313671, 3336571891, 3584528711,
   113926993, 338241895, 666307205, 773529912, 1294757372, 1396182291,
   1695183700, 1986661051, 2177026350, 2456956037, 2730485921, 2820302411,
   3259730800, 3345764771, 3516065817, 3600352804, 4094571909, 275423344,
   430227734, 506948616, 659060556, 883997877, 958139571, 1322822218,
   1537002063, 1747873779, 1955562222, 2024104815, 2227730452, 2361852424,
   2428436474, 2756734187, 3204031479, 3329325298]

def shaInit : List Nat :=
  [1779033703, 3144134277, 1013904242, 2773480762, 1359893119, 2600822924,
   528734635, 1541459225]

/-- The `n`-byte big-endian encoding of `x`. -/
def beBytes (n : Nat) (x : Nat) : List Nat :=
  (List.range n).map (fun i => (x >>> ((n - 1 - i) * 8)) % 256)

/-- FIPS 180-4 padding: append `0x80`, zero bytes to 56 mod 64, then the
bit length as 8 big-endian bytes. -/
def padMessage (msg : List Nat) : List Nat :=
  let padZeros := (120 - (msg.length + 1) % 64) % 64
  msg ++ [0x80] ++ List.replicate padZeros 0 ++ beBytes 8 (msg.length * 8)

/-- Group bytes into big-endian 32-bit words. -/
def toWords : List Nat → List Nat
  | a :: b :: c :: d :: rest => ((a <<< 24) + (b <<< 16) + (c <<< 8) + d) :: toWords rest
  | _ => []

/-- Split a word list into blocks of 16 words. -/
def wchunks (ws : List Nat) : List (List Nat) :=
  if h : ws = [] then []
  else ws.take 16 :: wchunks (ws.drop 16)
termination_by ws.length
decreasing_by
  simp only [List.length_drop]
  have : 0 < ws.length := List.length_pos.mpr h
  omega

def smallSigma0 (x : Nat) : Nat := (rotr 7 x) ^^^ (rotr 18 x) ^^^ (x >>> 3)

def smallSigma1 (x : Nat) : Nat := (rotr 17 x) ^^^ (rotr 19 x) ^^^ (x >>> 10)

/-- Extend the 16-word block by one scheduled word. -/
def scheduleStep (w : List Nat) : List Nat :=
  let n := w.length
  w ++ [u32 (smallSigma1 (w.getD (n - 2) 0) + w.getD (n - 7) 0 +
             smallSigma0 (w.getD (n - 15) 0) + w.getD (n - 16) 0)]

/-- The 64-word message schedule of one block. -/
def schedule (block : List Nat) : List Nat :=
  (List.range 48).foldl (fun w _ => scheduleStep w) block

/-- One round of the SHA-256 compression function. -/
def compressStep (st : List Nat) (wk : Nat × Nat) : List Nat :=
  match st with
  | [a, b, c, d, e, f, g, h] =>
    let s1 := (rotr 6 e) ^^^ (rotr 11 e) ^^^ (rotr 25 e)
    let ch := (e &&& f) ^^^ ((4294967295 - e) &&& g)
    let temp1 := u32 (h + s1 + ch + wk.2 + wk.1)
    let s0 := (rotr 2 a) ^^^ (rotr 13 a) ^^^ (rotr 22 a)
    let maj := (a &&& b) ^^^ (a &&& c) ^^^ (b &&& c)
    let temp2 := u32 (s0 + maj)
    [u32 (temp1 + temp2), a, b, c, u32 (d + temp1), e, f, g]
  | other => other

/-- Compress one 16-word block into the hash state. -/
def compressBlock (h : List Nat) (block : List Nat) : List Nat :=
  let st := ((schedule block).zip shaK).foldl compressStep h
  (h.zip st).map (fun p => u32 (p.1 + p.2))

/-- SHA-256 digest of a byte list, as eight 32-bit words. -/
def sha256words (msg : List Nat) : List Nat :=
  (wchunks (toWords (padMessage msg))).foldl compressBlock shaInit

def hexDigit (n : Nat) : Char :=
  if n < 10 then Char.ofNat (48 + n) else Char.ofNat (87 + n)

def wordToHex (x : Nat) : String :=
  String.mk ((List.range 8).map (fun i => hexDigit ((x >>> ((7 - i) * 4)) % 16)))

/-- SHA-256 hex digest of a byte list (lower-case hex, 64 chars). -/
def sha256hex (msg : List Nat) : String :=
  String.join ((sha256words msg).map wordToHex)

/-- Model of a `hashlib.sha256()` object: the bytes absorbed so far. -/
structure Sha256Hasher where
  absorbed : List Nat
deriving DecidableEq, Repr

def Sha256Hasher.new : Sha256Hasher := ⟨[]⟩

def Sha256Hasher.push (h : Sha256Hasher) (chunk : List Nat) : Sha256Hasher :=
  ⟨h.absorbed ++ chunk⟩

def Sha256Hasher.hexdigest (h : Sha256Hasher) : String :=
  sha256hex h.absorbed

def sha256Loop (h : Sha256Hasher) (stream : List Nat) : Sha256Hasher :=
  if hc : stream.take 8192 = [] then h
  else sha256Loop (h.push (stream.take 8192)) (stream.drop 8192)
termination_by stream.length
decreasing_by
  simp only [List.length_drop]
  have hne : stream ≠ [] := by
    intro hs
    apply hc
    rw [hs]
    rfl
  have : 0 < stream.length := List.length_pos.mpr hne
  omega

def compute_sha256 (file : List Nat) : String :=
  (sha256Loop Sha256Hasher.new file).hexdigest

/-- Python `str.split("/")` over the characters of the string. -/
def splitPath (p : String) : List String :=
  (p.toList.foldr
    (fun c acc =>
      match acc with
      | [] => if c = '/' then [[], []] else [[c]]
      | cur :: rest => if c = '/' then [] :: cur :: rest else (c :: cur) :: rest)
    [[]]).map (fun l => String.mk l)

/-- Python `str.startswith`: character-prefix test. -/
def strStartsWith (s pre : String) : Bool :=
  s.toList.take pre.toList.length == pre.toList

/-- Normalize path segments the way `Path.resolve()` does for a path
that exists only syntactically: drop empty and `.` segments, let `..`
pop the previous segment (at the root it stays at the root). -/
def normalizeSegs (segs : List String) : List String :=
  segs.foldl
    (fun acc seg =>
      if seg = "" ∨ seg = "." then acc
      else if seg = ".." then acc.dropLast
      else acc ++ [seg])
    []

/-- The segment list of `(base / storage_path).resolve()`. -/
def resolveJoin (base : List String) (storage_path : String) : List String :=
  if strStartsWith storage_path "/" then normalizeSegs (splitPath storage_path)
  else normalizeSegs (base ++ splitPath storage_path)

/-- The `str()` of an absolute path given by its segments. -/
def renderPath (segs : List String) : String :=
  segs.foldl (fun acc s => acc ++ "/" ++ s) ""

inductive StoreErr where
  | invalidPath
  | notFound
deriving DecidableEq, Repr

/-- Model of `LocalArtifactStore._get_full_path`: joins `storage_path` onto the
base and accepts it iff `str(full.resolve()).startswith(str(base.resolve()))`. -/
def getFullPath (base : List String) (storage_path : String) : Except StoreErr String :=
  let full := renderPath (resolveJoin base storage_path)
  if strStartsWith full (renderPath base) then
    Except.ok full
  else
    Except.error StoreErr.invalidPath

/-- The filesystem under the storage backend: resolved absolute path
string to file bytes. -/
def Storage : Type := String → Option (List Nat)

def Storage.empty : Storage := fun _ => none

def Storage.set (st : Storage) (p : String) (c : List Nat) : Storage :=
  fun q => if q = p then some c else st q

def Storage.remove (st : Storage) (p : String) : Storage :=
  fun q => if q = p then none else st q

/-- Accumulator of the `save` write loop: bytes written so far, the
running hasher, and the running byte count. -/
structure SaveState where
  written : List Nat
  hasher : Sha256Hasher
  size : Nat
deriving DecidableEq, Repr

/-- The `while chunk := file.read(8192)` loop of `LocalArtifactStore.save`:
write each chunk, fold it into the hasher, add its length to the size. -/
def saveLoop (acc : SaveState) (stream : List Nat) : SaveState :=
  if hc : stream.take 8192 = [] then acc
  else
    saveLoop
      ⟨acc.written ++ stream.take 8192, acc.hasher.push (stream.take 8192),
       acc.size + (stream.take 8192).length⟩
      (stream.drop 8192)
termination_by stream.length
decreasing_by
  simp only [List.length_drop]
  have hne : stream ≠ [] := by
    intro hs
    apply hc
    rw [hs]
    rfl
  have : 0 < stream.length := List.length_pos.mpr hne
  omega

/-- Model of `LocalArtifactStore.save`: resolve the path (directory-traversal
check), stream the input in 8 KiB chunks to storage while hashing and
counting, then return `(storage_path, size, hex digest)`.  The caller
declares no size or hash: both outputs are computed from the stream. -/
def LocalArtifactStore.save (base : List String) (st : Storage)
    (file : List Nat) (storage_path : String) :
    Except StoreErr (Storage × String × Nat × String) :=
  match getFullPath base storage_path with
  | Except.error e => Except.error e
  | Except.ok full =>
    let r := saveLoop ⟨[], Sha256Hasher.new, 0⟩ file
    Except.ok (st.set full r.written, storage_path, r.size, r.hasher.hexdigest)

/-- Model of `LocalArtifactStore.read`: resolve the path, then return the bytes,
failing with `NotFound` (`FileNotFoundError`) if no file is there. -/
def LocalArtifactStore.read (base : List String) (st : Storage)
    (storage_path : String) : Except StoreErr (List Nat) :=
  match getFullPath base storage_path with
  | Except.error e => Except.error e
  | Except.ok full =>
    match st full with
    | none => Except.error StoreErr.notFound
    | some c => Except.ok c

/-- Model of `LocalArtifactStore.delete`: resolve the path; unlink and return
`true` if the file exists, else return `false`. -/
def LocalArtifactStore.delete (base : List String) (st : Storage)
    (storage_path : String) : Except StoreErr (Storage × Bool) :=
  match getFullPath base storage_path with
  | Except.error e => Except.error e
  | Except.ok full =>
    match st full with
    | none => Except.ok (st, false)
    | some _ => Except.ok (st.remove full, true)

inductive TicketStatus where
  | draft
  | submitted
  | approved
  | running
  | done
  | failed
  | closed
deriving DecidableEq, Repr

inductive RunType where
  | proof
  | action
deriving DecidableEq, Repr

inductive RunStatus where
  | pending
  | running
  | success
  | failed
  | timeout
deriving DecidableEq, Repr

structure User where
  id : Nat
  username : String
  is_admin : Bool
deriving DecidableEq, Repr

structure Ticket where
  id : Nat
  title : String
  description : Option String
  status : TicketStatus
  asset_id : Option Nat
  created_by_id : Nat
  approved_by_id : Option Nat
deriving DecidableEq, Repr

/-- One entry of `inputs_manifest["artifacts"]`. -/
structure ManifestEntry where
  id : Nat
  filename : String
  sha256 : String
  size_bytes : Nat
deriving DecidableEq, Repr

/-- One entry of the proof run's `validation_results` list: either the
passed/failed record (with `hash_verified`) or the error record. -/
structure ValidationResult where
  artifact_id : Nat
  filename : String
  validation : String
  hash_verified : Option Bool
  error : Option String
deriving DecidableEq, Repr

/-- The `report` dict embedded in `outputs_manifest["validation_report"]`. -/
structure ValidationReport where
  timestamp : String
  run_id : Nat
  ticket_id : Nat
  validator : String
  validator_version : String
  total_artifacts : Nat
  validation_results : List ValidationResult
  overall_result : String
deriving DecidableEq, Repr

structure InputsManifest where
  artifacts : List ManifestEntry
deriving DecidableEq, Repr

structure OutputsManifest where
  validation_report : ValidationReport
deriving DecidableEq, Repr

structure Run where
  id : Nat
  run_type : RunType
  status : RunStatus
  ticket_id : Nat
  executed_by_id : Nat
  script_id : Option String
  validator_version : Option String
  inputs_manifest : Option InputsManifest
  outputs_manifest : Option OutputsManifest
  stdout_log : Option String
  stderr_log : Option String
  result_summary : Option String
  exit_code : Option Int
deriving DecidableEq, Repr

structure Artifact where
  id : Nat
  filename : String
  content_type : Option String
  size_bytes : Nat
  sha256_hash : String
  storage_path : String
  run_id : Nat
  uploaded_by_id : Nat
  is_deleted : Bool
deriving DecidableEq, Repr

/-- The relational rows the services read and write. -/
structure DB where
  tickets : List Ticket
  runs : List Run
  artifacts : List Artifact
deriving DecidableEq, Repr

def DB.getTicket (db : DB) (tid : Nat) : Option Ticket :=
  db.tickets.find? (fun t => t.id == tid)

def DB.getRun (db : DB) (rid : Nat) : Option Run :=
  db.runs.find? (fun r => r.id == rid)

def DB.getArtifact (db : DB) (aid : Nat) : Option Artifact :=
  db.artifacts.find? (fun a => a.id == aid)

def DB.setTicket (db : DB) (t : Ticket) : DB :=
  { db with tickets := db.tickets.map (fun u => if u.id = t.id then t else u) }

def DB.setRun (db : DB) (r : Run) : DB :=
  { db with runs := db.runs.map (fun u => if u.id = r.id then r else u) }

def DB.addRun (db : DB) (r : Run) : DB :=
  { db with runs := db.runs ++ [r] }

inductive ApiError where
  | notFound (detail : String)
  | preconditionFailed (detail : String)
  | permissionDenied (detail : String)
deriving DecidableEq, Repr

def isPermissionDenied {α : Type} : Except ApiError α → Bool
  | Except.error (ApiError.permissionDenied _) => true
  | _ => false

structure ScriptSpec where
  script_id : String
  name : String
  description : String
  version : String
  script_type : String
deriving DecidableEq, Repr

def Registry : Type := String → Option ScriptSpec

def builtinRegistry : Registry := fun sid =>
  if sid = "proof.file_hash" then
    some ⟨"proof.file_hash", "File Hash Validator",
          "Validates file integrity by checking SHA-256 hash", "1.0.0", "proof"⟩
  else if sid = "proof.config_format" then
    some ⟨"proof.config_format", "Config Format Validator",
          "Validates configuration file format and basic structure", "1.0.0", "proof"⟩
  else none

structure RunCreate where
  ticket_id : Nat
  run_type : RunType
  script_id : Option String
deriving DecidableEq, Repr

/-- Model of `create_run`: 404 if the ticket is missing; for an ACTION run, 400
if the ticket is not APPROVED, then 403 if the executor is not an
admin; otherwise add a PENDING run row and set the ticket to RUNNING.
`newRunId` stands for the autoincrement id the database assigns. -/
def create_run (db : DB) (run_in : RunCreate) (executor : User) (newRunId : Nat) :
    Except ApiError (DB × Run) :=
  match db.getTicket run_in.ticket_id with
  | none => Except.error (ApiError.notFound "Ticket not found")
  | some ticket =>
    if run_in.run_type = RunType.action ∧ ticket.status ≠ TicketStatus.approved then
      Except.error
        (ApiError.preconditionFailed "Ticket must be approved before running action runs")
    else if run_in.run_type = RunType.action ∧ executor.is_admin = false then
      Except.error (ApiError.permissionDenied "Only admins can trigger action runs")
    else
      let run : Run :=
        { id := newRunId, run_type := run_in.run_type, status := RunStatus.pending,
          ticket_id := run_in.ticket_id, executed_by_id := executor.id,
          script_id := run_in.script_id, validator_version := none,
          inputs_manifest := none, outputs_manifest := none, stdout_log := none,
          stderr_log := none, result_summary := none, exit_code := none }
      Except.ok
        ((db.addRun run).setTicket { ticket with status := TicketStatus.running }, run)

/-- Python `x if x is not None else old`: the conditional field assignments of
`update_run_status`. -/
def updOpt {α : Type} (new old : Option α) : Option α :=
  match new with
  | some v => some v
  | none => old

/-- The ticket status `update_run_status` writes for a run status:
SUCCESS ⇒ DONE, FAILED/TIMEOUT ⇒ FAILED, otherwise unchanged. -/
def ticketStatusFor (s : RunStatus) (current : TicketStatus) : TicketStatus :=
  match s with
  | RunStatus.success => TicketStatus.done
  | RunStatus.failed => TicketStatus.failed
  | RunStatus.timeout => TicketStatus.failed
  | _ => current

/-- Model of `update_run_status`: 404 if the run is missing; set the run's
status and any supplied logs/summary/exit code, and move the owning
ticket per `ticketStatusFor`, in one commit.  The foreign key from run
to ticket is non-nullable, so the ticket lookup only fails on a
corrupted database. -/
def update_run_status (db : DB) (run_id : Nat) (status : RunStatus)
    (result_summary stdout_log stderr_log : Option String) (exit_code : Option Int) :
    Except ApiError DB :=
  match db.getRun run_id with
  | none => Except.error (ApiError.notFound "Run not found")
  | some run =>
    match db.getTicket run.ticket_id with
    | none => Except.error (ApiError.notFound "Ticket not found")
    | some ticket =>
      let run' :=
        { run with
          status := status,
          result_summary := updOpt result_summary run.result_summary,
          stdout_log := updOpt stdout_log run.stdout_log,
          stderr_log := updOpt stderr_log run.stderr_log,
          exit_code := updOpt exit_code run.exit_code }
      Except.ok
        ((db.setRun run').setTicket { ticket with status := ticketStatusFor status ticket.status })

def verify_artifact (base : List String) (store : Storage) (db : DB)
    (artifact_id : Nat) : Except String Bool :=
  match db.getArtifact artifact_id with
  | none => Except.error "Artifact not found"
  | some a =>
    match LocalArtifactStore.read base store a.storage_path with
    | Except.error StoreErr.invalidPath =>
      Except.error "Invalid storage path: directory traversal detected"
    | Except.error StoreErr.notFound =>
      Except.error ("Artifact not found: " ++ a.storage_path)
    | Except.ok content => Except.ok (compute_sha256 content == a.sha256_hash)

/-- The `db.query(Artifact).filter(run_id == run.id, is_deleted == False)`
query of `_execute_proof_run`, in row (creation) order. -/
def runArtifacts (db : DB) (run_id : Nat) : List Artifact :=
  db.artifacts.filter (fun a => a.run_id == run_id && a.is_deleted == false)

/-- One iteration of the per-artifact validation loop: append the
result record and update `all_valid` (an exception forces it to
`False`). -/
def validateStep (base : List String) (store : Storage) (db : DB)
    (acc : List ValidationResult × Bool) (a : Artifact) :
    List ValidationResult × Bool :=
  match verify_artifact base store db a.id with
  | Except.ok v =>
    (acc.1 ++ [⟨a.id, a.filename, (if v then "passed" else "failed"), some v, none⟩],
     acc.2 && v)
  | Except.error e =>
    (acc.1 ++ [⟨a.id, a.filename, "error", none, some e⟩], false)

/-- The run-row mutation after `update_run_status` at the end of
`_execute_proof_run`: write both manifests and the validator version,
then commit. -/
def DB.setRunManifests (db : DB) (rid : Nat)
    (im : InputsManifest) (om : OutputsManifest) (vv : String) : DB :=
  { db with
    runs := db.runs.map (fun u =>
      if u.id = rid then
        { u with inputs_manifest := some im, outputs_manifest := some om,
                 validator_version := some vv }
      else u) }

/-- Model of `RunExecutor._execute_proof_run`.  `now` stands for
`datetime.now(timezone.utc).isoformat()`. -/
def executeProofRun (reg : Registry) (base : List String) (store : Storage)
    (db : DB) (now : String) (run : Run) : Except ApiError DB :=
  let artifacts := runArtifacts db run.id
  if artifacts.isEmpty then
    update_run_status db run.id RunStatus.failed
      (some "No artifacts found to validate") none
      (some "Proof run requires at least one artifact") none
  else
    let script_spec :=
      match run.script_id with
      | some sid => reg sid
      | none => none
    let inputs_manifest : InputsManifest :=
      ⟨artifacts.map (fun a => ⟨a.id, a.filename, a.sha256_hash, a.size_bytes⟩)⟩
    let vr := artifacts.foldl (validateStep base store db) ([], true)
    let validation_results := vr.1
    let all_valid := vr.2
    let report : ValidationReport :=
      { timestamp := now, run_id := run.id, ticket_id := run.ticket_id,
        validator :=
          (match script_spec with
           | some s => s.name
           | none => "default"),
        validator_version :=
          (match script_spec with
           | some s => s.version
           | none => "1.0.0"),
        total_artifacts := artifacts.length,
        validation_results := validation_results,
        overall_result := if all_valid then "passed" else "failed" }
    let result_summary :=
      "Validation " ++ (if all_valid then "passed" else "failed") ++ ": " ++
        toString artifacts.length ++ " artifact(s) checked"
    let stdout :=
      "Validated " ++ toString artifacts.length ++ " artifacts\n" ++
        String.intercalate "\n"
          (validation_results.map (fun r => "- " ++ r.filename ++ ": " ++ r.validation))
    let outputs_manifest : OutputsManifest := ⟨report⟩
    match update_run_status db run.id
        (if all_valid then RunStatus.success else RunStatus.failed)
        (some result_summary) (some stdout) none
        (some (if all_valid then 0 else 1)) with
    | Except.error e => Except.error e
    | Except.ok db2 =>
      Except.ok
        (db2.setRunManifests run.id inputs_manifest outputs_manifest
          (match script_spec with
           | some s => s.version
           | none => "1.0.0"))

/-- Model of `RunExecutor._execute_action_run`: not implemented; marks the run
FAILED with fixed texts. -/
def executeActionRun (db : DB) (run : Run) : Except ApiError DB :=
  update_run_status db run.id RunStatus.failed
    (some "Action runs not yet implemented") none
    (some "Action run execution is not yet implemented") none

/-- What the awaited dispatch of `execute_run` did: returned normally,
raised `asyncio.TimeoutError`, or raised some other exception with the
given text. -/
inductive RunSignal where
  | normal
  | timeoutSignal
  | errorSignal (msg : String)
deriving DecidableEq, Repr

/-- Model of `RunExecutor.execute_run`: move the run to RUNNING, dispatch by run
kind, and map `asyncio.TimeoutError` to a TIMEOUT terminal update (the
summary is the fixed text, the stderr line names
`settings.run_timeout_seconds`) and any other exception to a FAILED
terminal update carrying the exception text. -/
def execute_run (reg : Registry) (base : List String) (store : Storage)
    (timeout_seconds : Nat) (db : DB) (now : String) (run : Run)
    (signal : RunSignal) : Except ApiError DB :=
  match update_run_status db run.id RunStatus.running none none none none with
  | Except.error e => Except.error e
  | Except.ok db1 =>
    match signal with
    | RunSignal.timeoutSignal =>
      update_run_status db1 run.id RunStatus.timeout
        (some "Run execution timed out") none
        (some ("Execution exceeded timeout of " ++ toString timeout_seconds ++ " seconds"))
        none
    | RunSignal.errorSignal msg =>
      update_run_status db1 run.id RunStatus.failed
        (some ("Run failed: " ++ msg)) none (some msg) none
    | RunSignal.normal =>
      match run.run_type with
      | RunType.proof => executeProofRun reg base store db1 now run
      | RunType.action => executeActionRun db1 run

structure TicketUpdate where
  title : Option String
  description : Option String
  status : Option TicketStatus
  asset_id : Option Nat
deriving DecidableEq, Repr

structure TState where
  title : String
  description : Option String
  status : TicketStatus
  asset_id : Option Nat
  created_by_id : Nat
  approved_by_id : Option Nat
  hist : List TicketStatus
deriving DecidableEq, Repr

def TState.setStatus (st : TState) (s : TicketStatus) : TState :=
  { st with status := s, hist := st.hist ++ [s] }

/-- Model of `create_ticket`: a new ticket starts SUBMITTED with no approver. -/
def create_ticket (title : String) (description : Option String)
    (asset_id : Option Nat) (creator : User) : TState :=
  { title := title, description := description, status := TicketStatus.submitted,
    asset_id := asset_id, created_by_id := creator.id, approved_by_id := none,
    hist := [TicketStatus.submitted] }

/-- The `setattr` loop of `update_ticket` over `model_dump(exclude_unset=True)`. -/
def applyUpdate (st : TState) (upd : TicketUpdate) : TState :=
  let st1 :=
    match upd.title with
    | some v => { st with title := v }
    | none => st
  let st2 :=
    match upd.description with
    | some v => { st1 with description := some v }
    | none => st1
  let st3 :=
    match upd.status with
    | some v => st2.setStatus v
    | none => st2
  match upd.asset_id with
  | some v => { st3 with asset_id := some v }
  | none => st3

inductive TicketOp where
  | approve (actor : User)
  | update (actor : User) (upd : TicketUpdate)
  | createRun (actor : User) (rt : RunType)
  | runStatus (s : RunStatus)
deriving DecidableEq, Repr

/-- One service call against the ticket; `none` is a raised
`HTTPException` (the ticket row is untouched). -/
def ticketStep (st : TState) (op : TicketOp) : Option TState :=
  match op with
  | TicketOp.approve u =>
    if u.is_admin = false then none
    else if st.status ≠ TicketStatus.submitted then none
    else some { st.setStatus TicketStatus.approved with approved_by_id := some u.id }
  | TicketOp.update u upd =>
    if st.created_by_id ≠ u.id ∧ u.is_admin = false then none
    else some (applyUpdate st upd)
  | TicketOp.createRun u rt =>
    if rt = RunType.action ∧ st.status ≠ TicketStatus.approved then none
    else if rt = RunType.action ∧ u.is_admin = false then none
    else some (st.setStatus TicketStatus.running)
  | TicketOp.runStatus s =>
    match s with
    | RunStatus.success => some (st.setStatus TicketStatus.done)
    | RunStatus.failed => some (st.setStatus TicketStatus.failed)
    | RunStatus.timeout => some (st.setStatus TicketStatus.failed)
    | _ => some st

/-- Run a list of service calls; a call that raises leaves the row as
it was. -/
def ticketTrace (init : TState) (ops : List TicketOp) : TState :=
  ops.foldl (fun st op => (ticketStep st op).getD st) init

/-- The ticket's status has passed through APPROVED at least once. -/
def passedApproved (st : TState) : Prop :=
  TicketStatus.approved ∈ st.hist

instance (st : TState) : Decidable (passedApproved st) := by
  unfold passedApproved
  infer_instance

structure AuditRec where
  event_type : String
  timestamp : Int
  actor_id : Option Int
  actor_username : Option String
  resource_type : Option String
  resource_id : Option Int
  action : String
  success : Bool
deriving DecidableEq, Repr

inductive LogLine where
  | record (e : AuditRec)
  | corrupt (s : String)
deriving DecidableEq, Repr

/-- Model of `AuditEvent.model_validate_json` on one line. -/
def parseLine : LogLine → Option AuditRec
  | LogLine.record e => some e
  | LogLine.corrupt _ => none

/-- Date-partitioned log files (date key, lines in append order), kept
in ascending date order: `log` only ever appends to the partition of
the current date, and the date never decreases, so the
lexicographically `sorted(glob("audit_*.jsonl"))` scan of `query` reads
exactly this list front to back. -/
def AuditLog : Type := List (Nat × List LogLine)

/-- Model of `AuditLogger.log` on the machine-readable partition of `today`. -/
def logEvent : AuditLog → Nat → LogLine → AuditLog
  | [], today, l => [(today, [l])]
  | [(d, ls)], today, l =>
    if d = today then [(d, ls ++ [l])] else [(d, ls), (today, [l])]
  | p :: rest, today, l => p :: logEvent rest today l

structure QueryFilters where
  event_type : Option String
  actor_id : Option Int
  resource_type : Option String
  resource_id : Option Int
  start_date : Option Int
  end_date : Option Int
deriving DecidableEq, Repr

def noFilters : QueryFilters := ⟨none, none, none, none, none, none⟩

/-- One `if <filt> and event.<field> != <filt>: continue` pair for a
string-valued filter: Python truthiness ignores a `None` or empty
filter. -/
def strFilterOk (filt : Option String) (v : String) : Bool :=
  match filt with
  | none => true
  | some t => if t = "" then true else v == t

/-- Same for an optional string field (`event.resource_type`). -/
def strOptFilterOk (filt : Option String) (v : Option String) : Bool :=
  match filt with
  | none => true
  | some t => if t = "" then true else v == some t

/-- Same for an int-valued filter over an optional field: a filter of
`0` is falsy and is ignored. -/
def intFilterOk (filt : Option Int) (v : Option Int) : Bool :=
  match filt with
  | none => true
  | some n => if n = 0 then true else v == some n

/-- The conjunction of the six `continue` guards of `AuditLogger.query`. -/
def matchesFilters (f : QueryFilters) (e : AuditRec) : Bool :=
  strFilterOk f.event_type e.event_type &&
  intFilterOk f.actor_id e.actor_id &&
  strOptFilterOk f.resource_type e.resource_type &&
  intFilterOk f.resource_id e.resource_id &&
  (match f.start_date with
   | none => true
   | some d => decide (d ≤ e.timestamp)) &&
  (match f.end_date with
   | none => true
   | some d => decide (e.timestamp ≤ d))

/-- The line loop of `AuditLogger.query`: skip unparseable lines, skip
non-matching events, append matches, and return as soon as
`len(events) >= limit` (checked after the append). -/
def queryLoop (f : QueryFilters) (limit : Nat) :
    List AuditRec → List LogLine → List AuditRec
  | acc, [] => acc
  | acc, l :: ls =>
    match parseLine l with
    | none => queryLoop f limit acc ls
    | some e =>
      if matchesFilters f e then
        if limit ≤ (acc ++ [e]).length then acc ++ [e]
        else queryLoop f limit (acc ++ [e]) ls
      else queryLoop f limit acc ls

/-- All lines of all partitions, in partition order then file order. -/
def allLines (st : AuditLog) : List LogLine :=
  (st.map Prod.snd).flatten

/-- The events of the log that survive parsing, in append order. -/
def parsedEvents (st : AuditLog) : List AuditRec :=
  (allLines st).filterMap parseLine

/-- Model of `AuditLogger.query`. -/
def queryLog (st : AuditLog) (f : QueryFilters) (limit : Nat) : List AuditRec :=
  queryLoop f limit [] (allLines st)

/-- The run row as `update_run_status` rewrites it. -/
def Run.withStatus (r : Run) (status : RunStatus)
    (rs so se : Option String) (ec : Option Int) : Run :=
  { r with
    status := status,
    result_summary := updOpt rs r.result_summary,
    stdout_log := updOpt so r.stdout_log,
    stderr_log := updOpt se r.stderr_log,
    exit_code := updOpt ec r.exit_code }

/-- Spec-side predicate: the bytes stored at the artifact's
`storage_path` hash to its recorded `sha256_hash` (false if they cannot
be read). -/
def storedHashMatches (base : List String) (store : Storage) (a : Artifact) : Bool :=
  match LocalArtifactStore.read base store a.storage_path with
  | Except.ok c => compute_sha256 c == a.sha256_hash
  | Except.error _ => false

/-- Every non-deleted artifact of the run hash-verifies. -/
def allArtifactsVerify (base : List String) (store : Storage) (db : DB) (rid : Nat) : Bool :=
  (runArtifacts db rid).all (storedHashMatches base store)

/-- The run rows after a `create_run` attempt (unchanged if it raised). -/
def runsAfterCreate (db : DB) (inp : RunCreate) (u : User) (nid : Nat) : List Run :=
  match create_run db inp u nid with
  | Except.ok (db', _) => db'.runs
  | Except.error _ => db.runs

/-- The target ticket's stored status after a `create_run` attempt. -/
def ticketStatusAfterCreate (db : DB) (inp : RunCreate) (u : User) (nid : Nat) :
    Option TicketStatus :=
  match create_run db inp u nid with
  | Except.ok (db', _) => (db'.getTicket inp.ticket_id).map Ticket.status
  | Except.error _ => (db.getTicket inp.ticket_id).map Ticket.status

/-- A run field in the database produced by an executor step. -/
def runFieldAfter (res : Except ApiError DB) (rid : Nat) (f : Run → Option String) :
    Option String :=
  match res with
  | Except.ok d =>
    match d.getRun rid with
    | some r => f r
    | none => none
  | Except.error _ => none

/-- Naive substring test used to state "the text names the bound". -/
def containsSubstr (s sub : String) : Bool :=
  (List.range (s.toList.length + 1)).any
    (fun i => (s.toList.drop i).take sub.toList.length == sub.toList)

/-- Sample rows for the witnesses. -/
def uAlice : User := ⟨1, "alice", false⟩

def uAdmin : User := ⟨2, "boss", true⟩

def ticket1 : Ticket :=
  ⟨1, "work order", none, TicketStatus.submitted, none, 1, none⟩

def ticketClosed : Ticket :=
  ⟨1, "work order", none, TicketStatus.closed, none, 1, none⟩

def run1 : Run :=
  ⟨1, RunType.proof, RunStatus.pending, 1, 1, none, none, none, none, none, none, none, none⟩

def db1 : DB := ⟨[ticket1], [run1], []⟩

def artHello : Artifact :=
  ⟨1, "hello.txt", none, 5,
   "2cf24dba5fb0a30e26e83b2ac5b9e29e1b161e5c1fa7425e73043362938b9824",
   "runs/1/hello.txt", 1, 1, false⟩

def dbWithArtifact : DB := ⟨[ticket1], [run1], [artHello]⟩

/-- The one operation that can set a status without recording an
approver: an `update_ticket` call whose payload overrides the status to
APPROVED. -/
def setsStatusApproved : TicketOp → Bool
  | TicketOp.update _ upd => upd.status == some TicketStatus.approved
  | _ => false

/-- The claimed invariant as a relation on one ticket's state. -/
def tsInv (st : TState) : Prop :=
  st.approved_by_id.isSome = true ↔ passedApproved st

/-- C5 (as stated, refuted): `query` checks the limit only after
appending a match, so a query with `limit = 0` still returns one event
instead of stopping with zero matches collected. -/
def evRun1 : AuditRec :=
  ⟨"run.started", 0, some 1, some "alice", some "run", some 1,
   "Run status updated to running", true⟩

def auditLogSample : AuditLog :=
  logEvent [] 20260101 (LogLine.record evRun1)

def evOther : AuditRec :=
  ⟨"ticket.created", 1, some 2, some "boss", some "ticket", some 7,
   "Created ticket: other", true⟩

def evRun1Done : AuditRec :=
  ⟨"run.completed", 2, some 1, some "alice", some "run", some 1,
   "Run status updated to success", true⟩

def auditLogMulti : AuditLog :=
  logEvent
    (logEvent
      (logEvent (logEvent [] 20260101 (LogLine.record evRun1)) 20260101
        (LogLine.corrupt "not json"))
      20260102 (LogLine.record evOther))
    20260102 (LogLine.record evRun1Done)

/-! ### Theorems -/

theorem take8192_ne_nil {s : List Nat} (hs : s ≠ []) : s.take 8192 ≠ [] := by
  intro hc
  rcases List.take_eq_nil_iff.mp hc with h8 | hnil
  · exact absurd h8 (by decide)
  · exact hs hnil

theorem sha256Loop_absorb_aux :
    ∀ (n : Nat) (h : Sha256Hasher) (s : List Nat), s.length ≤ n →
      sha256Loop h s = ⟨h.absorbed ++ s⟩ := by
  intro n
  induction n with
  | zero =>
    intro h s hle
    have hs : s = [] := List.length_eq_zero.mp (Nat.le_zero.mp hle)
    subst hs
    rw [sha256Loop]
    simp
  | succ n ih =>
    intro h s hle
    by_cases hs : s = []
    · subst hs
      rw [sha256Loop]
      simp
    · rw [sha256Loop, dif_neg (take8192_ne_nil hs)]
      have hlen : (s.drop 8192).length ≤ n := by
        have : 0 < s.length := List.length_pos.mpr hs
        simp only [List.length_drop]
        omega
      rw [ih _ _ hlen]
      simp [Sha256Hasher.push, List.append_assoc, List.take_append_drop]

theorem sha256Loop_absorb (h : Sha256Hasher) (s : List Nat) :
    sha256Loop h s = ⟨h.absorbed ++ s⟩ :=
  sha256Loop_absorb_aux s.length h s le_rfl

/-- The chunked `compute_sha256` equals the one-shot SHA-256 hex digest of the stream. -/
theorem compute_sha256_eq_hex (file : List Nat) :
    compute_sha256 file = sha256hex file := by
  rw [compute_sha256, sha256Loop_absorb]
  simp [Sha256Hasher.new, Sha256Hasher.hexdigest]

theorem saveLoop_spec_aux :
    ∀ (n : Nat) (acc : SaveState) (s : List Nat), s.length ≤ n →
      saveLoop acc s =
        ⟨acc.written ++ s, ⟨acc.hasher.absorbed ++ s⟩, acc.size + s.length⟩ := by
  intro n
  induction n with
  | zero =>
    intro acc s hle
    have hs : s = [] := List.length_eq_zero.mp (Nat.le_zero.mp hle)
    subst hs
    rw [saveLoop]
    simp
  | succ n ih =>
    intro acc s hle
    by_cases hs : s = []
    · subst hs
      rw [saveLoop]
      simp
    · rw [saveLoop, dif_neg (take8192_ne_nil hs)]
      have hlen : (s.drop 8192).length ≤ n := by
        have : 0 < s.length := List.length_pos.mpr hs
        simp only [List.length_drop]
        omega
      rw [ih _ _ hlen]
      simp only [Sha256Hasher.push, List.append_assoc, List.take_append_drop]
      have hsz : (s.take 8192).length + (s.drop 8192).length = s.length := by
        simp
        omega
      rw [Nat.add_assoc, hsz]

theorem saveLoop_spec (acc : SaveState) (s : List Nat) :
    saveLoop acc s =
      ⟨acc.written ++ s, ⟨acc.hasher.absorbed ++ s⟩, acc.size + s.length⟩ :=
  saveLoop_spec_aux s.length acc s le_rfl

theorem find?_map_modify {α : Type} (key : α → Nat) (g : α → α) (k : Nat)
    (hg : ∀ x, key x = k → key (g x) = k) :
    ∀ l : List α,
      (l.map fun u => if key u = k then g u else u).find? (fun u => key u == k) =
        (l.find? (fun u => key u == k)).map g := by
  intro l
  induction l with
  | nil => rfl
  | cons a as ih =>
    by_cases ha : key a = k
    · simp only [List.map_cons, if_pos ha]
      rw [List.find?_cons_of_pos _ (by simp [hg a ha]),
          List.find?_cons_of_pos _ (by simp [ha]), Option.map_some']
    · simp only [List.map_cons, if_neg ha]
      rw [List.find?_cons_of_neg _ (by simp [ha]),
          List.find?_cons_of_neg _ (by simp [ha]), ih]

theorem find?_key_of_nodup {α : Type} (key : α → Nat) :
    ∀ (l : List α), (l.map key).Nodup → ∀ a ∈ l,
      l.find? (fun x => key x == key a) = some a := by
  intro l
  induction l with
  | nil => intro _ a ha; cases ha
  | cons b bs ih =>
    intro hnd a ha
    rw [List.map_cons, List.nodup_cons] at hnd
    obtain ⟨hb, hnd'⟩ := hnd
    rcases List.mem_cons.mp ha with hab | habs
    · subst hab
      exact List.find?_cons_of_pos _ (by simp)
    · by_cases hkb : key b = key a
      · exact absurd (hkb ▸ List.mem_map_of_mem key habs) hb
      · rw [List.find?_cons_of_neg _ (by simp [hkb])]
        exact ih hnd' a habs

theorem getTicket_setRun (db : DB) (tid : Nat) (r : Run) :
    (db.setRun r).getTicket tid = db.getTicket tid := rfl

theorem getTicket_setRunManifests (db : DB) (rid tid : Nat)
    (im : InputsManifest) (om : OutputsManifest) (vv : String) :
    (db.setRunManifests rid im om vv).getTicket tid = db.getTicket tid := rfl

theorem getRun_setTicket (db : DB) (rid : Nat) (t : Ticket) :
    (db.setTicket t).getRun rid = db.getRun rid := rfl

theorem getRun_setRun (db : DB) (rid : Nat) (run r' : Run)
    (hr : db.getRun rid = some run) (hid : r'.id = run.id) :
    (db.setRun r').getRun rid = some r' := by
  have hkey : run.id = rid := by simpa using List.find?_some hr
  have h1 : r'.id = rid := hid.trans hkey
  unfold DB.setRun DB.getRun
  simp only [h1]
  rw [find?_map_modify Run.id (fun _ => r') rid (fun x _ => h1) db.runs]
  unfold DB.getRun at hr
  rw [hr, Option.map_some']

theorem getTicket_setTicket (db : DB) (tid : Nat) (t t' : Ticket)
    (ht : db.getTicket tid = some t) (hid : t'.id = t.id) :
    (db.setTicket t').getTicket tid = some t' := by
  have hkey : t.id = tid := by simpa using List.find?_some ht
  have h1 : t'.id = tid := hid.trans hkey
  unfold DB.setTicket DB.getTicket
  simp only [h1]
  rw [find?_map_modify Ticket.id (fun _ => t') tid (fun x _ => h1) db.tickets]
  unfold DB.getTicket at ht
  rw [ht, Option.map_some']

theorem getRun_setRunManifests (db : DB) (rid : Nat) (r : Run)
    (hr : db.getRun rid = some r)
    (im : InputsManifest) (om : OutputsManifest) (vv : String) :
    (db.setRunManifests rid im om vv).getRun rid =
      some { r with inputs_manifest := some im, outputs_manifest := some om,
                    validator_version := some vv } := by
  unfold DB.setRunManifests DB.getRun
  rw [find?_map_modify Run.id
    (fun u => { u with inputs_manifest := some im, outputs_manifest := some om,
                       validator_version := some vv })
    rid (fun x hx => hx) db.runs]
  unfold DB.getRun at hr
  rw [hr, Option.map_some']

theorem update_run_status_eq (db : DB) (rid : Nat) (status : RunStatus)
    (rs so se : Option String) (ec : Option Int) (run : Run) (ticket : Ticket)
    (hr : db.getRun rid = some run) (ht : db.getTicket run.ticket_id = some ticket) :
    update_run_status db rid status rs so se ec =
      Except.ok
        ((db.setRun (run.withStatus status rs so se ec)).setTicket
          { ticket with status := ticketStatusFor status ticket.status }) := by
  unfold update_run_status
  rw [hr]
  simp only [ht]
  rfl

theorem validateStep_bool (base : List String) (store : Storage) (db : DB)
    (acc : List ValidationResult × Bool) (a : Artifact)
    (hga : db.getArtifact a.id = some a) :
    (validateStep base store db acc a).2 = (acc.2 && storedHashMatches base store a) := by
  unfold validateStep verify_artifact storedHashMatches
  rw [hga]
  cases hread : LocalArtifactStore.read base store a.storage_path with
  | error e => cases e <;> simp [hread]
  | ok c => simp [hread]

theorem validate_fold_bool (base : List String) (store : Storage) (db : DB) :
    ∀ (arts : List Artifact), (∀ a ∈ arts, db.getArtifact a.id = some a) →
      ∀ acc : List ValidationResult × Bool,
        (arts.foldl (validateStep base store db) acc).2 =
          (acc.2 && arts.all (storedHashMatches base store)) := by
  intro arts
  induction arts with
  | nil => intro _ acc; simp
  | cons a as ih =>
    intro h acc
    rw [List.foldl_cons, ih (fun x hx => h x (List.mem_cons_of_mem a hx)),
        validateStep_bool base store db acc a (h a (List.mem_cons_self a as)),
        List.all_cons, Bool.and_assoc]

theorem runArtifacts_lookup (db : DB) (rid : Nat)
    (hnd : (db.artifacts.map Artifact.id).Nodup) :
    ∀ a ∈ runArtifacts db rid, db.getArtifact a.id = some a := by
  intro a ha
  have hmem : a ∈ db.artifacts := List.mem_of_mem_filter ha
  exact find?_key_of_nodup Artifact.id db.artifacts hnd a hmem

/-- C4: creating an ACTION run against a ticket that is not APPROVED
fails with the precondition error (HTTP 400) and leaves the run store
unchanged. -/
theorem C4_action_requires_approved (db : DB) (inp : RunCreate) (u : User) (nid : Nat)
    (ticket : Ticket)
    (ht : db.getTicket inp.ticket_id = some ticket)
    (hact : inp.run_type = RunType.action)
    (hst : ticket.status ≠ TicketStatus.approved) :
    create_run db inp u nid =
      Except.error
        (ApiError.preconditionFailed "Ticket must be approved before running action runs") ∧
    runsAfterCreate db inp u nid = db.runs := by
  have h1 : create_run db inp u nid =
      Except.error
        (ApiError.preconditionFailed "Ticket must be approved before running action runs") := by
    unfold create_run
    rw [ht]
    exact if_pos ⟨hact, hst⟩
  refine ⟨h1, ?_⟩
  unfold runsAfterCreate
  rw [h1]

theorem C4_witness :
    db1.getTicket 1 = some ticket1 ∧
    (RunType.action = RunType.action) ∧
    ticket1.status ≠ TicketStatus.approved ∧
    (create_run db1 ⟨1, RunType.action, none⟩ uAdmin 2 =
      Except.error
        (ApiError.preconditionFailed "Ticket must be approved before running action runs") ∧
     runsAfterCreate db1 ⟨1, RunType.action, none⟩ uAdmin 2 = db1.runs) :=
  ⟨by decide, rfl, by decide,
   C4_action_requires_approved db1 ⟨1, RunType.action, none⟩ uAdmin 2 ticket1
     (by decide) rfl (by decide)⟩

/-- C7 (as stated, refuted): on a SUBMITTED ticket, a non-admin's
ACTION-run attempt raises the 400 precondition error, not 403
PermissionDenied — the approval check precedes the admin check. -/
theorem C7_counterexample :
    create_run db1 ⟨1, RunType.action, none⟩ uAlice 2 =
      Except.error
        (ApiError.preconditionFailed "Ticket must be approved before running action runs") ∧
    isPermissionDenied (create_run db1 ⟨1, RunType.action, none⟩ uAlice 2) = false ∧
    ticket1.status = TicketStatus.submitted ∧
    uAlice.is_admin = false := by
  exact ⟨rfl, rfl, rfl, rfl⟩

/-- C7 (amended): on a SUBMITTED ticket, a non-admin's ACTION-run
attempt fails with `PreconditionFailed` (never `PermissionDenied`), and
the ticket stays SUBMITTED. -/
theorem C7_submitted_action_nonadmin (db : DB) (inp : RunCreate) (u : User) (nid : Nat)
    (ticket : Ticket)
    (ht : db.getTicket inp.ticket_id = some ticket)
    (hact : inp.run_type = RunType.action)
    (hsub : ticket.status = TicketStatus.submitted)
    (hadm : u.is_admin = false) :
    create_run db inp u nid =
      Except.error
        (ApiError.preconditionFailed "Ticket must be approved before running action runs") ∧
    isPermissionDenied (create_run db inp u nid) = false ∧
    ticketStatusAfterCreate db inp u nid = some TicketStatus.submitted := by
  have hst : ticket.status ≠ TicketStatus.approved := by
    rw [hsub]
    decide
  have h1 : create_run db inp u nid =
      Except.error
        (ApiError.preconditionFailed "Ticket must be approved before running action runs") := by
    unfold create_run
    rw [ht]
    exact if_pos ⟨hact, hst⟩
  refine ⟨h1, by rw [h1]; rfl, ?_⟩
  unfold ticketStatusAfterCreate
  rw [h1, ht, Option.map_some', hsub]

theorem C7_witness :
    db1.getTicket 1 = some ticket1 ∧
    ticket1.status = TicketStatus.submitted ∧
    uAlice.is_admin = false ∧
    (create_run db1 ⟨1, RunType.action, some "proof.file_hash"⟩ uAlice 2 =
      Except.error
        (ApiError.preconditionFailed "Ticket must be approved before running action runs") ∧
     isPermissionDenied (create_run db1 ⟨1, RunType.action, some "proof.file_hash"⟩ uAlice 2) = false ∧
     ticketStatusAfterCreate db1 ⟨1, RunType.action, some "proof.file_hash"⟩ uAlice 2 =
       some TicketStatus.submitted) :=
  ⟨by decide, by decide, by decide,
   C7_submitted_action_nonadmin db1 ⟨1, RunType.action, some "proof.file_hash"⟩ uAlice 2 ticket1
     (by decide) rfl (by decide) (by decide)⟩

/-- C10: creating a PROOF run checks no ticket-status precondition: for
a ticket in any status (DONE, FAILED and CLOSED included) it succeeds,
adds a PENDING run row, and silently moves the ticket to RUNNING. -/
theorem C10_proof_run_ignores_status (db : DB) (inp : RunCreate) (u : User) (nid : Nat)
    (ticket : Ticket)
    (ht : db.getTicket inp.ticket_id = some ticket)
    (hp : inp.run_type = RunType.proof) :
    ∃ db' run,
      create_run db inp u nid = Except.ok (db', run) ∧
      run.status = RunStatus.pending ∧
      run.ticket_id = inp.ticket_id ∧
      db'.runs = db.runs ++ [run] ∧
      db'.getTicket inp.ticket_id = some { ticket with status := TicketStatus.running } := by
  have hna : ¬(inp.run_type = RunType.action ∧ ticket.status ≠ TicketStatus.approved) := by
    rintro ⟨h, -⟩
    rw [hp] at h
    cases h
  have hna2 : ¬(inp.run_type = RunType.action ∧ u.is_admin = false) := by
    rintro ⟨h, -⟩
    rw [hp] at h
    cases h
  refine
    ⟨(db.addRun
        { id := nid, run_type := inp.run_type, status := RunStatus.pending,
          ticket_id := inp.ticket_id, executed_by_id := u.id, script_id := inp.script_id,
          validator_version := none, inputs_manifest := none, outputs_manifest := none,
          stdout_log := none, stderr_log := none, result_summary := none,
          exit_code := none }).setTicket { ticket with status := TicketStatus.running },
      { id := nid, run_type := inp.run_type, status := RunStatus.pending,
        ticket_id := inp.ticket_id, executed_by_id := u.id, script_id := inp.script_id,
        validator_version := none, inputs_manifest := none, outputs_manifest := none,
        stdout_log := none, stderr_log := none, result_summary := none,
        exit_code := none },
      ?_, rfl, rfl, rfl, ?_⟩
  · unfold create_run
    rw [ht]
    simp only [if_neg hna, if_neg hna2]
  · exact getTicket_setTicket (db.addRun _) inp.ticket_id ticket _ ht rfl

theorem C10_witness :
    (DB.mk [ticketClosed] [] []).getTicket 1 = some ticketClosed ∧
    ticketClosed.status = TicketStatus.closed ∧
    (∃ db' run,
      create_run (DB.mk [ticketClosed] [] []) ⟨1, RunType.proof, none⟩ uAlice 1 =
        Except.ok (db', run) ∧
      run.status = RunStatus.pending ∧
      run.ticket_id = 1 ∧
      db'.runs = (DB.mk [ticketClosed] [] []).runs ++ [run] ∧
      db'.getTicket 1 = some { ticketClosed with status := TicketStatus.running }) :=
  ⟨by decide, by decide,
   C10_proof_run_ignores_status (DB.mk [ticketClosed] [] []) ⟨1, RunType.proof, none⟩ uAlice 1
     ticketClosed (by decide) rfl⟩

/-- C3: the `startswith` string-prefix check of `_get_full_path` is not
the containment check the spec and the code's own comment intend.  The
logical path `../artifacts-evil/pwn` resolves to
`/data/artifacts-evil/pwn`, which escapes the root `/data/artifacts`
(its segments do not extend the root's), yet the check accepts it
because the rendered string extends the rendered root, so `save`
succeeds and writes the bytes outside the storage root instead of
failing with `InvalidPath`. -/
theorem C3_traversal_check_bypassed :
    resolveJoin ["data", "artifacts"] "../artifacts-evil/pwn" =
      ["data", "artifacts-evil", "pwn"] ∧
    (resolveJoin ["data", "artifacts"] "../artifacts-evil/pwn").take 2 ≠
      ["data", "artifacts"] ∧
    getFullPath ["data", "artifacts"] "../artifacts-evil/pwn" =
      Except.ok "/data/artifacts-evil/pwn" ∧
    (match LocalArtifactStore.save ["data", "artifacts"] Storage.empty
        [1, 2, 3] "../artifacts-evil/pwn" with
     | Except.ok (st', _, _, _) => st' "/data/artifacts-evil/pwn"
     | Except.error _ => none) = some [1, 2, 3] := by
  refine ⟨by decide, by decide, by decide, ?_⟩
  rw [show LocalArtifactStore.save ["data", "artifacts"] Storage.empty
        [1, 2, 3] "../artifacts-evil/pwn" =
      Except.ok
        (Storage.set Storage.empty "/data/artifacts-evil/pwn"
          (saveLoop ⟨[], Sha256Hasher.new, 0⟩ [1, 2, 3]).written,
         "../artifacts-evil/pwn",
         (saveLoop ⟨[], Sha256Hasher.new, 0⟩ [1, 2, 3]).size,
         (saveLoop ⟨[], Sha256Hasher.new, 0⟩ [1, 2, 3]).hasher.hexdigest)
      from by rw [LocalArtifactStore.save]; rfl]
  rw [saveLoop_spec]
  decide

/-- C9 (as stated, refuted): the zero-artifact summary text is
`"No artifacts found to validate"`, not `"no artifacts to validate"`. -/
theorem C9_counterexample :
    runFieldAfter
        (executeProofRun builtinRegistry ["data", "artifacts"] Storage.empty db1
          "2026-01-01T00:00:00+00:00" run1)
        1 Run.result_summary = some "No artifacts found to validate" ∧
    runFieldAfter
        (executeProofRun builtinRegistry ["data", "artifacts"] Storage.empty db1
          "2026-01-01T00:00:00+00:00" run1)
        1 Run.result_summary ≠ some "no artifacts to validate" := by
  refine ⟨by decide, by decide⟩

/-- C9 (amended): a proof run with zero non-deleted artifacts is
terminated FAILED with summary `"No artifacts found to validate"`, the
owning ticket moves to FAILED, and no validator is consulted: the
outcome is the bare status update and is independent of the registry,
the artifact store and the clock. -/
theorem C9_zero_artifacts (reg : Registry) (base : List String) (store : Storage)
    (db : DB) (now : String) (run : Run) (ticket : Ticket)
    (hr : db.getRun run.id = some run)
    (ht : db.getTicket run.ticket_id = some ticket)
    (hempty : runArtifacts db run.id = []) :
    ∃ db' run' ticket',
      executeProofRun reg base store db now run = Except.ok db' ∧
      db'.getRun run.id = some run' ∧
      db'.getTicket run.ticket_id = some ticket' ∧
      run'.status = RunStatus.failed ∧
      run'.result_summary = some "No artifacts found to validate" ∧
      run'.stderr_log = some "Proof run requires at least one artifact" ∧
      ticket'.status = TicketStatus.failed ∧
      (∀ (reg2 : Registry) (base2 : List String) (store2 : Storage) (now2 : String),
        executeProofRun reg2 base2 store2 db now2 run =
          executeProofRun reg base store db now run) := by
  have hbranch : ∀ (reg0 : Registry) (base0 : List String) (store0 : Storage) (now0 : String),
      executeProofRun reg0 base0 store0 db now0 run =
        update_run_status db run.id RunStatus.failed
          (some "No artifacts found to validate") none
          (some "Proof run requires at least one artifact") none := by
    intro reg0 base0 store0 now0
    unfold executeProofRun
    rw [hempty]
    rfl
  rw [hbranch reg base store now,
      update_run_status_eq db run.id RunStatus.failed _ _ _ _ run ticket hr ht]
  refine
    ⟨_,
     run.withStatus RunStatus.failed (some "No artifacts found to validate") none
       (some "Proof run requires at least one artifact") none,
     { ticket with status := ticketStatusFor RunStatus.failed ticket.status },
     rfl, ?_, ?_, rfl, rfl, rfl, rfl, ?_⟩
  · exact getRun_setRun db run.id run _ hr rfl
  · exact getTicket_setTicket (db.setRun _) run.ticket_id ticket _ ht rfl
  · intro reg2 base2 store2 now2
    rw [hbranch reg2 base2 store2 now2]
    exact update_run_status_eq db run.id RunStatus.failed _ _ _ _ run ticket hr ht

theorem C9_witness :
    db1.getRun 1 = some run1 ∧
    db1.getTicket 1 = some ticket1 ∧
    runArtifacts db1 1 = [] ∧
    (∃ db' run' ticket',
      executeProofRun builtinRegistry ["data", "artifacts"] Storage.empty db1
        "2026-01-01T00:00:00+00:00" run1 = Except.ok db' ∧
      db'.getRun 1 = some run' ∧
      db'.getTicket 1 = some ticket' ∧
      run'.status = RunStatus.failed ∧
      run'.result_summary = some "No artifacts found to validate" ∧
      run'.stderr_log = some "Proof run requires at least one artifact" ∧
      ticket'.status = TicketStatus.failed ∧
      (∀ (reg2 : Registry) (base2 : List String) (store2 : Storage) (now2 : String),
        executeProofRun reg2 base2 store2 db1 now2 run1 =
          executeProofRun builtinRegistry ["data", "artifacts"] Storage.empty db1
            "2026-01-01T00:00:00+00:00" run1)) :=
  ⟨by decide, by decide, by decide,
   C9_zero_artifacts builtinRegistry ["data", "artifacts"] Storage.empty db1
     "2026-01-01T00:00:00+00:00" run1 ticket1 (by decide) (by decide) (by decide)⟩

/-- C8 (as stated, refuted): on the timeout signal the run's
`result_summary` is the fixed text `"Run execution timed out"`, which
does not name the configured 300-second bound; the bound appears in
`stderr_log` instead. -/
theorem C8_counterexample :
    runFieldAfter
        (execute_run builtinRegistry ["data", "artifacts"] Storage.empty 300 db1
          "2026-01-01T00:00:00+00:00" run1 RunSignal.timeoutSignal)
        1 Run.result_summary = some "Run execution timed out" ∧
    containsSubstr "Run execution timed out" "300" = false ∧
    runFieldAfter
        (execute_run builtinRegistry ["data", "artifacts"] Storage.empty 300 db1
          "2026-01-01T00:00:00+00:00" run1 RunSignal.timeoutSignal)
        1 Run.stderr_log = some "Execution exceeded timeout of 300 seconds" ∧
    containsSubstr "Execution exceeded timeout of 300 seconds" "300" = true := by
  refine ⟨by decide, by decide, by decide, by decide⟩

/-- C8 (amended): a run whose execution raises the timeout signal is
marked TIMEOUT; its `result_summary` is the fixed text
`"Run execution timed out"`, while its `stderr_log` line describes the
breach and names the configured timeout bound; the owning ticket moves
to FAILED. -/
theorem C8_timeout_outcome (reg : Registry) (base : List String) (store : Storage)
    (tsec : Nat) (db : DB) (now : String) (run : Run) (ticket : Ticket)
    (hr : db.getRun run.id = some run)
    (ht : db.getTicket run.ticket_id = some ticket) :
    ∃ db' run' ticket',
      execute_run reg base store tsec db now run RunSignal.timeoutSignal =
        Except.ok db' ∧
      db'.getRun run.id = some run' ∧
      db'.getTicket run.ticket_id = some ticket' ∧
      run'.status = RunStatus.timeout ∧
      run'.result_summary = some "Run execution timed out" ∧
      run'.stderr_log =
        some ("Execution exceeded timeout of " ++ toString tsec ++ " seconds") ∧
      ticket'.status = TicketStatus.failed := by
  have h1 := update_run_status_eq db run.id RunStatus.running none none none none
    run ticket hr ht
  have hstep : execute_run reg base store tsec db now run RunSignal.timeoutSignal =
      update_run_status
        ((db.setRun (run.withStatus RunStatus.running none none none none)).setTicket
          { ticket with status := ticketStatusFor RunStatus.running ticket.status })
        run.id RunStatus.timeout
        (some "Run execution timed out") none
        (some ("Execution exceeded timeout of " ++ toString tsec ++ " seconds"))
        none := by
    unfold execute_run
    rw [h1]
  have hr1 : ((db.setRun (run.withStatus RunStatus.running none none none none)).setTicket
        { ticket with
          status := ticketStatusFor RunStatus.running ticket.status }).getRun run.id =
      some (run.withStatus RunStatus.running none none none none) :=
    getRun_setRun db run.id run _ hr rfl
  have ht1 : ((db.setRun (run.withStatus RunStatus.running none none none none)).setTicket
        { ticket with
          status := ticketStatusFor RunStatus.running ticket.status }).getTicket
        run.ticket_id =
      some { ticket with status := ticketStatusFor RunStatus.running ticket.status } :=
    getTicket_setTicket (db.setRun _) run.ticket_id ticket _ ht rfl
  rw [hstep, update_run_status_eq _ run.id RunStatus.timeout _ _ _ _ _ _ hr1 ht1]
  refine
    ⟨_,
     (run.withStatus RunStatus.running none none none none).withStatus RunStatus.timeout
       (some "Run execution timed out") none
       (some ("Execution exceeded timeout of " ++ toString tsec ++ " seconds")) none,
     { { ticket with status := ticketStatusFor RunStatus.running ticket.status } with
       status :=
         ticketStatusFor RunStatus.timeout (ticketStatusFor RunStatus.running ticket.status) },
     rfl, ?_, ?_, rfl, rfl, rfl, rfl⟩
  · exact getRun_setRun _ run.id _ _ hr1 rfl
  · exact getTicket_setTicket _ run.ticket_id _ _ ht1 rfl

theorem C8_witness :
    db1.getRun 1 = some run1 ∧
    db1.getTicket 1 = some ticket1 ∧
    (∃ db' run' ticket',
      execute_run builtinRegistry ["data", "artifacts"] Storage.empty 300 db1
        "2026-01-01T00:00:00+00:00" run1 RunSignal.timeoutSignal = Except.ok db' ∧
      db'.getRun 1 = some run' ∧
      db'.getTicket 1 = some ticket' ∧
      run'.status = RunStatus.timeout ∧
      run'.result_summary = some "Run execution timed out" ∧
      run'.stderr_log =
        some ("Execution exceeded timeout of " ++ toString 300 ++ " seconds") ∧
      ticket'.status = TicketStatus.failed) :=
  ⟨by decide, by decide,
   C8_timeout_outcome builtinRegistry ["data", "artifacts"] Storage.empty 300 db1
     "2026-01-01T00:00:00+00:00" run1 ticket1 (by decide) (by decide)⟩

/-- Reading back the run row after `update_run_status` followed by
`setRunManifests`; stated so that the left side pattern-matches the
executor's final database expression. -/
theorem getRun_after_update_manifests (db : DB) (rid : Nat) (run : Run)
    (hr : db.getRun rid = some run)
    (S : RunStatus) (rs so se : Option String) (ec : Option Int) (t' : Ticket)
    (im : InputsManifest) (om : OutputsManifest) (vv : String) :
    (((db.setRun (run.withStatus S rs so se ec)).setTicket t').setRunManifests
        rid im om vv).getRun rid =
      some
        { run.withStatus S rs so se ec with
          inputs_manifest := some im, outputs_manifest := some om,
          validator_version := some vv } :=
  getRun_setRunManifests ((db.setRun (run.withStatus S rs so se ec)).setTicket t') rid
    (run.withStatus S rs so se ec)
    (getRun_setRun db rid run (run.withStatus S rs so se ec) hr rfl) im om vv

/-- Reading back the ticket row after the same two steps. -/
theorem getTicket_after_update_manifests (db : DB) (rid : Nat) (R : Run)
    (ticket : Ticket) (tid : Nat) (ht : db.getTicket tid = some ticket)
    (ts : TicketStatus) (im : InputsManifest) (om : OutputsManifest) (vv : String) :
    (((db.setRun R).setTicket { ticket with status := ts }).setRunManifests
        rid im om vv).getTicket tid =
      some { ticket with status := ts } :=
  getTicket_setTicket (db.setRun R) tid ticket _ ht rfl

/-- C1: a proof run with at least one non-deleted artifact ends
SUCCESS/exit 0 when every artifact's stored bytes hash to its recorded
`sha256_hash` and FAILED/exit 1 otherwise; the embedded validation
report says "passed" exactly in the first case; and the owning ticket
moves to DONE on SUCCESS and FAILED on FAILED. -/
theorem C1_proof_run_verdict (reg : Registry) (base : List String) (store : Storage)
    (db : DB) (now : String) (run : Run) (ticket : Ticket)
    (hr : db.getRun run.id = some run)
    (ht : db.getTicket run.ticket_id = some ticket)
    (hnd : (db.artifacts.map Artifact.id).Nodup)
    (hne : runArtifacts db run.id ≠ []) :
    ∃ db',
      executeProofRun reg base store db now run = Except.ok db' ∧
      Option.map Run.status (db'.getRun run.id) =
        some (if allArtifactsVerify base store db run.id then RunStatus.success
              else RunStatus.failed) ∧
      (db'.getRun run.id).bind Run.exit_code =
        some (if allArtifactsVerify base store db run.id then (0 : Int) else 1) ∧
      Option.map (fun om => om.validation_report.overall_result)
          ((db'.getRun run.id).bind Run.outputs_manifest) =
        some (if allArtifactsVerify base store db run.id then "passed" else "failed") ∧
      Option.map Ticket.status (db'.getTicket run.ticket_id) =
        some (if allArtifactsVerify base store db run.id then TicketStatus.done
              else TicketStatus.failed) := by
  have hfold :
      (List.foldl (validateStep base store db) (([] : List ValidationResult), true)
          (runArtifacts db run.id)).2 =
        allArtifactsVerify base store db run.id := by
    rw [validate_fold_bool base store db (runArtifacts db run.id)
        (runArtifacts_lookup db run.id hnd) (([] : List ValidationResult), true)]
    simp [allArtifactsVerify]
  rcases hx : runArtifacts db run.id with _ | ⟨a0, as0⟩
  · exact absurd hx hne
  rw [hx] at hfold
  unfold executeProofRun
  simp only [hx]
  rw [if_neg (show ¬((a0 :: as0).isEmpty = true) by simp)]
  rw [hfold]
  rw [update_run_status_eq db run.id _ _ _ _ _ run ticket hr ht]
  refine ⟨_, rfl, ?_, ?_, ?_, ?_⟩
  · rw [getRun_after_update_manifests db run.id run hr]
    rfl
  · rw [getRun_after_update_manifests db run.id run hr]
    rfl
  · rw [getRun_after_update_manifests db run.id run hr]
    rfl
  · rw [getTicket_after_update_manifests db run.id _ ticket run.ticket_id ht]
    cases hok : allArtifactsVerify base store db run.id <;>
      simp [hok, ticketStatusFor]

theorem C1_witness :
    dbWithArtifact.getRun 1 = some run1 ∧
    dbWithArtifact.getTicket 1 = some ticket1 ∧
    (dbWithArtifact.artifacts.map Artifact.id).Nodup ∧
    runArtifacts dbWithArtifact 1 ≠ [] ∧
    (∃ db',
      executeProofRun builtinRegistry ["data", "artifacts"] Storage.empty dbWithArtifact
        "2026-01-01T00:00:00+00:00" run1 = Except.ok db' ∧
      Option.map Run.status (db'.getRun 1) =
        some (if allArtifactsVerify ["data", "artifacts"] Storage.empty dbWithArtifact 1 then
          RunStatus.success
         else RunStatus.failed) ∧
      (db'.getRun 1).bind Run.exit_code =
        some (if allArtifactsVerify ["data", "artifacts"] Storage.empty dbWithArtifact 1 then
          (0 : Int)
         else 1) ∧
      Option.map (fun om => om.validation_report.overall_result)
          ((db'.getRun 1).bind Run.outputs_manifest) =
        some (if allArtifactsVerify ["data", "artifacts"] Storage.empty dbWithArtifact 1 then
          "passed"
         else "failed") ∧
      Option.map Ticket.status (db'.getTicket 1) =
        some (if allArtifactsVerify ["data", "artifacts"] Storage.empty dbWithArtifact 1 then
          TicketStatus.done
         else TicketStatus.failed)) :=
  ⟨by decide, by decide, by decide, by decide,
   C1_proof_run_verdict builtinRegistry ["data", "artifacts"] Storage.empty dbWithArtifact
     "2026-01-01T00:00:00+00:00" run1 ticket1 (by decide) (by decide) (by decide) (by decide)⟩

/-- C2: for any byte stream and any logical path the store accepts,
`save` returns the logical path, the byte count actually consumed and
the `compute_sha256` digest of the stream (it takes no caller-declared
size or hash at all), `read` on the same path returns exactly the saved
bytes, and the returned digest equals the one-shot SHA-256 hex digest
of the stream. -/
theorem C2_save_read_roundtrip (base : List String) (st : Storage) (S : List Nat)
    (P full : String) (hpath : getFullPath base P = Except.ok full) :
    LocalArtifactStore.save base st S P =
      Except.ok (Storage.set st full S, P, S.length, compute_sha256 S) ∧
    LocalArtifactStore.read base (Storage.set st full S) P = Except.ok S ∧
    compute_sha256 S = sha256hex S := by
  refine ⟨?_, ?_, compute_sha256_eq_hex S⟩
  · unfold LocalArtifactStore.save
    rw [hpath]
    simp only [saveLoop_spec]
    simp [Sha256Hasher.hexdigest, Sha256Hasher.new, compute_sha256, sha256Loop_absorb]
  · unfold LocalArtifactStore.read
    rw [hpath]
    simp [Storage.set]

theorem C2_witness :
    getFullPath ["data", "artifacts"] "runs/1/hello.txt" =
      Except.ok "/data/artifacts/runs/1/hello.txt" ∧
    (LocalArtifactStore.save ["data", "artifacts"] Storage.empty
        [104, 101, 108, 108, 111] "runs/1/hello.txt" =
      Except.ok
        (Storage.set Storage.empty "/data/artifacts/runs/1/hello.txt"
          [104, 101, 108, 108, 111],
         "runs/1/hello.txt", ([104, 101, 108, 108, 111] : List Nat).length,
         compute_sha256 [104, 101, 108, 108, 111]) ∧
     LocalArtifactStore.read ["data", "artifacts"]
        (Storage.set Storage.empty "/data/artifacts/runs/1/hello.txt"
          [104, 101, 108, 108, 111])
        "runs/1/hello.txt" = Except.ok [104, 101, 108, 108, 111] ∧
     compute_sha256 [104, 101, 108, 108, 111] =
       sha256hex [104, 101, 108, 108, 111]) :=
  ⟨by decide,
   C2_save_read_roundtrip ["data", "artifacts"] Storage.empty
     [104, 101, 108, 108, 111] "runs/1/hello.txt" "/data/artifacts/runs/1/hello.txt"
     (by decide)⟩

theorem applyUpdate_approved_by (st : TState) (upd : TicketUpdate) :
    (applyUpdate st upd).approved_by_id = st.approved_by_id := by
  obtain ⟨t, d, s, a⟩ := upd
  cases t <;> cases d <;> cases s <;> cases a <;> rfl

theorem applyUpdate_hist (st : TState) (upd : TicketUpdate) :
    (applyUpdate st upd).hist =
      (match upd.status with
       | some v => st.hist ++ [v]
       | none => st.hist) := by
  obtain ⟨t, d, s, a⟩ := upd
  cases t <;> cases d <;> cases s <;> cases a <;> rfl

theorem setStatus_inv (st : TState) (s : TicketStatus)
    (hs : s ≠ TicketStatus.approved) (hinv : tsInv st) : tsInv (st.setStatus s) := by
  unfold tsInv passedApproved TState.setStatus at *
  simp only [List.mem_append, List.mem_singleton]
  rw [hinv]
  constructor
  · intro h
    exact Or.inl h
  · rintro (h | h)
    · exact h
    · exact absurd h.symm hs

theorem ticketStep_preserves (st : TState) (op : TicketOp)
    (hop : setsStatusApproved op = false) (hinv : tsInv st) :
    tsInv ((ticketStep st op).getD st) := by
  cases op with
  | approve u =>
    unfold ticketStep
    simp only []
    by_cases h1 : u.is_admin = false
    · simpa [h1] using hinv
    · rw [if_neg h1]
      by_cases h2 : st.status ≠ TicketStatus.submitted
      · simpa [h2] using hinv
      · rw [if_neg h2]
        unfold tsInv passedApproved TState.setStatus at *
        simp
  | update u upd =>
    unfold ticketStep
    simp only []
    by_cases h1 : st.created_by_id ≠ u.id ∧ u.is_admin = false
    · simpa [h1] using hinv
    · rw [if_neg h1]
      simp only [Option.getD_some]
      unfold tsInv passedApproved at *
      rw [applyUpdate_approved_by, applyUpdate_hist]
      cases hs : upd.status with
      | none => exact hinv
      | some v =>
        have hv : v ≠ TicketStatus.approved := by
          intro hva
          simp only [setsStatusApproved] at hop
          rw [hs, hva] at hop
          simp at hop
        simp only [List.mem_append, List.mem_singleton]
        rw [hinv]
        constructor
        · intro h
          exact Or.inl h
        · rintro (h | h)
          · exact h
          · exact absurd h.symm hv
  | createRun u rt =>
    unfold ticketStep
    simp only []
    by_cases h1 : rt = RunType.action ∧ st.status ≠ TicketStatus.approved
    · simpa [h1] using hinv
    · rw [if_neg h1]
      by_cases h2 : rt = RunType.action ∧ u.is_admin = false
      · simpa [h2] using hinv
      · rw [if_neg h2]
        exact setStatus_inv st TicketStatus.running (by decide) hinv
  | runStatus s =>
    cases s with
    | pending => exact hinv
    | running => exact hinv
    | success => exact setStatus_inv st TicketStatus.done (by decide) hinv
    | failed => exact setStatus_inv st TicketStatus.failed (by decide) hinv
    | timeout => exact setStatus_inv st TicketStatus.failed (by decide) hinv

theorem ticketTrace_inv :
    ∀ (ops : List TicketOp) (st : TState), tsInv st →
      (∀ op ∈ ops, setsStatusApproved op = false) → tsInv (ticketTrace st ops) := by
  intro ops
  induction ops with
  | nil =>
    intro st h _
    exact h
  | cons op rest ih =>
    intro st h hall
    unfold ticketTrace at *
    rw [List.foldl_cons]
    exact ih _ (ticketStep_preserves st op (hall op (List.mem_cons_self op rest)) h)
      (fun o ho => hall o (List.mem_cons_of_mem _ ho))

/-- C6 (as stated, refuted): a creator can call `update_ticket` with a
status override of APPROVED; the status then has passed through
APPROVED while `approved_by` is still unset, breaking the
"if and only if" invariant. -/
theorem C6_counterexample :
    passedApproved
      (ticketTrace (create_ticket "t" none none uAlice)
        [TicketOp.update uAlice ⟨none, none, some TicketStatus.approved, none⟩]) ∧
    (ticketTrace (create_ticket "t" none none uAlice)
        [TicketOp.update uAlice ⟨none, none, some TicketStatus.approved, none⟩]).approved_by_id
      = none := by
  exact ⟨by decide, by decide⟩

/-- C6 (amended): over every trace of `create_ticket`, `approve_ticket`,
`update_ticket`, `create_run` and `update_run_status` in which no
`update_ticket` call overrides the status to APPROVED, `approved_by` is
set if and only if the status has passed through APPROVED at least
once. -/
theorem C6_approved_by_invariant (title : String) (description : Option String)
    (asset_id : Option Nat) (creator : User) (ops : List TicketOp)
    (hops : ∀ op ∈ ops, setsStatusApproved op = false) :
    ((ticketTrace (create_ticket title description asset_id creator) ops).approved_by_id.isSome
        = true ↔
      passedApproved (ticketTrace (create_ticket title description asset_id creator) ops)) := by
  have hinit : tsInv (create_ticket title description asset_id creator) := by
    unfold tsInv passedApproved create_ticket
    simp
  exact ticketTrace_inv ops _ hinit hops

theorem C6_witness :
    (∀ op ∈ [TicketOp.approve uAdmin,
             TicketOp.update uAlice ⟨some "new title", none, none, none⟩,
             TicketOp.createRun uAdmin RunType.action,
             TicketOp.runStatus RunStatus.success],
        setsStatusApproved op = false) ∧
    ((ticketTrace (create_ticket "t" none none uAlice)
        [TicketOp.approve uAdmin,
         TicketOp.update uAlice ⟨some "new title", none, none, none⟩,
         TicketOp.createRun uAdmin RunType.action,
         TicketOp.runStatus RunStatus.success]).approved_by_id.isSome = true ↔
      passedApproved
        (ticketTrace (create_ticket "t" none none uAlice)
          [TicketOp.approve uAdmin,
           TicketOp.update uAlice ⟨some "new title", none, none, none⟩,
           TicketOp.createRun uAdmin RunType.action,
           TicketOp.runStatus RunStatus.success])) :=
  ⟨by decide,
   C6_approved_by_invariant "t" none none uAlice
     [TicketOp.approve uAdmin,
      TicketOp.update uAlice ⟨some "new title", none, none, none⟩,
      TicketOp.createRun uAdmin RunType.action,
      TicketOp.runStatus RunStatus.success]
     (by decide)⟩

theorem queryLoop_spec (f : QueryFilters) (limit : Nat) :
    ∀ (ls : List LogLine) (acc : List AuditRec), acc.length < limit →
      queryLoop f limit acc ls =
        acc ++ ((ls.filterMap parseLine).filter (matchesFilters f)).take
          (limit - acc.length) := by
  intro ls
  induction ls with
  | nil =>
    intro acc h
    simp [queryLoop]
  | cons l rest ih =>
    intro acc h
    simp only [queryLoop]
    cases hp : parseLine l with
    | none =>
      rw [ih acc h, List.filterMap_cons_none hp]
    | some e =>
      simp only []
      rw [List.filterMap_cons_some hp]
      by_cases hm : matchesFilters f e = true
      · rw [if_pos hm, List.filter_cons_of_pos hm]
        by_cases hl : limit ≤ (acc ++ [e]).length
        · rw [if_pos hl]
          have hlen : limit - acc.length = 1 := by
            simp only [List.length_append, List.length_singleton] at hl
            omega
          rw [hlen, List.take_succ_cons, List.take_zero]
        · rw [if_neg hl]
          have hlt : (acc ++ [e]).length < limit := Nat.lt_of_not_le hl
          rw [ih (acc ++ [e]) hlt]
          have hlen : limit - acc.length = (limit - (acc ++ [e]).length) + 1 := by
            simp only [List.length_append, List.length_singleton]
            omega
          rw [hlen, List.take_succ_cons, List.append_assoc, List.singleton_append]
      · rw [if_neg hm, ih acc h, List.filter_cons_of_neg hm]

/-- The conjunctive filter specialised to `resource_type="run"`,
`resource_id=R` (for a nonzero run id). -/
theorem matchesFilters_run (R : Int) (hR : R ≠ 0) (e : AuditRec) :
    matchesFilters ⟨none, none, some "run", some R, none, none⟩ e =
      (e.resource_type == some "run" && e.resource_id == some R) := by
  unfold matchesFilters strFilterOk strOptFilterOk intFilterOk
  simp only []
  rw [if_neg (by decide : ¬(("run" : String) = "")), if_neg hR]
  simp [Bool.and_assoc]

theorem C5_counterexample :
    queryLog auditLogSample noFilters 0 = [evRun1] ∧
    ¬((queryLog auditLogSample noFilters 0).length ≤ 0) := by
  exact ⟨by decide, by decide⟩

/-- C5 (amended): for `limit ≥ 1`, `query` returns exactly the first
`limit` parse-surviving events matching all supplied filters, in append
order (partitions in ascending date order, lines in file order), with
unparseable lines skipped; a supplied id filter of `0` (or an empty
string filter) is treated as not supplied.  In particular, filtering by
`resource_type="run"`, `resource_id=R` (R ≠ 0) returns exactly run R's
events in append order, truncated at `limit`. -/
theorem C5_query_returns_matches (st : AuditLog) (f : QueryFilters) (limit : Nat)
    (hlim : 1 ≤ limit) :
    queryLog st f limit =
      ((parsedEvents st).filter (matchesFilters f)).take limit ∧
    (∀ R : Int, R ≠ 0 →
      queryLog st ⟨none, none, some "run", some R, none, none⟩ limit =
        ((parsedEvents st).filter
          (fun e => e.resource_type == some "run" && e.resource_id == some R)).take limit) := by
  constructor
  · unfold queryLog parsedEvents
    rw [queryLoop_spec f limit (allLines st) [] (by simpa using hlim)]
    simp
  · intro R hR
    unfold queryLog parsedEvents
    rw [queryLoop_spec _ limit (allLines st) [] (by simpa using hlim)]
    simp only [List.nil_append]
    rw [List.filter_congr (fun e _ => matchesFilters_run R hR e)]
    simp

theorem C5_witness :
    (1 : Nat) ≤ 100 ∧
    (queryLog auditLogMulti noFilters 100 =
      ((parsedEvents auditLogMulti).filter (matchesFilters noFilters)).take 100 ∧
     (∀ R : Int, R ≠ 0 →
       queryLog auditLogMulti ⟨none, none, some "run", some R, none, none⟩ 100 =
         ((parsedEvents auditLogMulti).filter
           (fun e => e.resource_type == some "run" && e.resource_id == some R)).take 100)) :=
  ⟨by decide, C5_query_returns_matches auditLogMulti noFilters 100 (by decide)⟩

end TEP
